import Mathlib

/-!
Verification development for the aegnt-unltd orchestration core.

The Python modules under src/ are shallowly embedded as Lean definitions:
pure code becomes Lean functions, mutation becomes explicit state passing,
fallible code returns Except.  Calls into external collaborators (the
sandboxed tool body, the graphiti knowledge-graph client) are the suspension
points of the design and are modelled as explicit oracle parameters; the
deterministic in-repository stand-ins are provided as concrete instances of
those oracles.  Wall-clock time is abstracted: timestamps and durations are
carried through as supplied values and never branched on.
-/

namespace AegntUnltd

/-- A propagated Python exception, identified by its message. -/
structure PyErr where
  msg : String
deriving DecidableEq, Repr

/-- agent_zero.py: class AgentState(Enum). -/
inductive AgentState
  | idle
  | thinking
  | executing
  | waiting
  | error
  | completed
deriving DecidableEq, Repr

/-- agent_zero.py: dataclass AgentConfig.  The tool allow-list field is kept
as the literal list of names from the default factory. -/
structure AgentConfig where
  name : String
  model : String := "llama4:70b"
  max_memory_mb : Nat := 2048
  max_steps : Nat := 100
  timeout_seconds : Nat := 300
  tools : List String := ["terminal", "browser", "memory"]
  auto_evolve : Bool := true
deriving DecidableEq, Repr

/-- agent_zero.py: dataclass Task.  The opaque context map and creation time
are not branched on anywhere in the embedded code and are dropped; result is
the opaque payload stored on success, error the captured message. -/
structure Task where
  id : String
  description : String := ""
  priority : Nat := 1
  status : AgentState := .idle
  result : Option String := none
  error : Option String := none
deriving DecidableEq, Repr

namespace Sandbox

/-! ## tool_registry.py

`str(uuid.uuid4())` is modelled as a fresh identifier drawn from a counter
held in the registry; freshness (no two registrations share an id) is the
property the source relies on.  Parameter schemas, code bodies and argument
dictionaries are semantically opaque to the registry and are carried as
plain strings. -/

/-- Tool identifiers (stand-in for uuid4 strings). -/
abbrev ToolId := Nat

/-- tool_registry.py: dataclass ToolDefinition. -/
structure ToolDefinition where
  id : ToolId
  name : String
  description : String
  parameters : String
  code : String
  created_by : String
  created_at : Nat := 0
  usage_count : Nat := 0
  success_rate : ℚ := 1
deriving DecidableEq, Repr

/-- tool_registry.py: dataclass ToolExecution. -/
structure ToolExecution where
  tool_id : ToolId
  agent_id : String
  arguments : String
  result : Option String := none
  error : Option String := none
  duration_ms : Nat := 0
  timestamp : Nat := 0
deriving DecidableEq, Repr

/-- The sandboxed invocation of a tool body on given arguments.  The spec
names the tool body as one of the external-collaborator suspension points,
and execute_tool captures a raising body into the error field of the
returned record; accordingly the body is an oracle returning either a
result payload or the message of the raised exception.  The deterministic
stand-in found in the source is stubRun below. -/
def SandboxRun := ToolDefinition → String → Except String String

/-- The literal try-block body of the source: result = status executed /
tool name, never raising. -/
def stubRun : SandboxRun := fun tool _ => .ok ("executed " ++ tool.name)

/-- Python dict assignment d[k] = v on an insertion-ordered association
list: replace in place if the key is present, append otherwise. -/
def dictSet (l : List (ToolId × ToolDefinition)) (k : ToolId) (v : ToolDefinition) :
    List (ToolId × ToolDefinition) :=
  match l with
  | [] => [(k, v)]
  | (k', v') :: rest => if k' = k then (k, v) :: rest else (k', v') :: dictSet rest k v

/-- Python dict lookup d[k] / `k in d` on the association list (first
match, mirroring the unique-key dict). -/
def lookupTool (l : List (ToolId × ToolDefinition)) (k : ToolId) : Option ToolDefinition :=
  match l with
  | [] => none
  | (k', v') :: rest => if k' = k then some v' else lookupTool rest k

/-- tool_registry.py: class ToolRegistry, fields tools (insertion-ordered
dict) and executions, plus the fresh-id counter modelling uuid4. -/
structure ToolRegistry where
  tools : List (ToolId × ToolDefinition) := []
  executions : List ToolExecution := []
  next_uuid : Nat := 0
deriving DecidableEq, Repr

/-- ToolRegistry.register_tool. -/
def ToolRegistry.register_tool (reg : ToolRegistry)
    (name description parameters code created_by : String) : ToolId × ToolRegistry :=
  let tool_id : ToolId := reg.next_uuid
  let tool : ToolDefinition :=
    { id := tool_id
      name := name
      description := description
      parameters := parameters
      code := code
      created_by := created_by }
  (tool_id, { reg with
              tools := dictSet reg.tools tool_id tool
              next_uuid := reg.next_uuid + 1 })

/-- ToolRegistry.execute_tool.  Unknown ids return an error-carrying record
without touching the registry; on a known id the body is invoked through
the sandbox oracle, and both the success and the captured-exception branch
increment the usage count and append the record. -/
def ToolRegistry.execute_tool (reg : ToolRegistry) (run : SandboxRun)
    (tool_id : ToolId) (agent_id : String) (arguments : String) :
    ToolExecution × ToolRegistry :=
  match lookupTool reg.tools tool_id with
  | none =>
    ({ tool_id := tool_id
       agent_id := agent_id
       arguments := arguments
       error := some ("Tool " ++ toString tool_id ++ " not found") }, reg)
  | some tool =>
    match run tool arguments with
    | .ok res =>
      let execution : ToolExecution :=
        { tool_id := tool_id
          agent_id := agent_id
          arguments := arguments
          result := some res }
      (execution,
       { reg with
         tools := dictSet reg.tools tool_id { tool with usage_count := tool.usage_count + 1 }
         executions := reg.executions ++ [execution] })
    | .error e =>
      let execution : ToolExecution :=
        { tool_id := tool_id
          agent_id := agent_id
          arguments := arguments
          error := some e }
      (execution,
       { reg with
         tools := dictSet reg.tools tool_id { tool with usage_count := tool.usage_count + 1 }
         executions := reg.executions ++ [execution] })

/-- ToolRegistry.get_tools with the creator filter (the text filter is not
exercised by the embedded callers).  Python truthiness: an empty creator
string disables the filter. -/
def ToolRegistry.get_tools (reg : ToolRegistry) (created_by : Option String) :
    List ToolDefinition :=
  let ts := reg.tools.map Prod.snd
  match created_by with
  | none => ts
  | some c => if c = "" then ts else ts.filter (fun t => t.created_by = c)

/-- The ten built-in tools registered by _register_builtin_tools, attributed
to the reserved system creator.  Schemas and code bodies are opaque. -/
def builtinSpecs : List (String × String) :=
  [ ("web_search", "Search the web for information"),
    ("browser_navigate", "Navigate to a URL in the browser"),
    ("terminal_exec", "Execute a terminal command"),
    ("file_read", "Read a file from the filesystem"),
    ("file_write", "Write content to a file"),
    ("memory_store", "Store information in agent memory"),
    ("memory_recall", "Recall information from agent memory"),
    ("code_execute", "Execute Python code in sandbox"),
    ("create_agent", "Create a new agent instance"),
    ("http_request", "Make an HTTP request") ]

/-- ToolRegistry construction: an empty registry followed by
_register_builtin_tools. -/
def ToolRegistry.new : ToolRegistry :=
  builtinSpecs.foldl
    (fun reg s => (reg.register_tool s.1 s.2 ("schema " ++ s.1) ("body " ++ s.1) "system").2)
    {}

/-- Sum of usage_count over all registered tools. -/
def sumUsage (reg : ToolRegistry) : Nat :=
  (reg.tools.map (fun p => p.2.usage_count)).sum

/-- The claimed registry invariant: total usage equals the length of the
execution history. -/
def RegInv (reg : ToolRegistry) : Prop :=
  sumUsage reg = reg.executions.length

/-- Well-formedness maintained by construction: every key in the dict was
drawn from the counter, so the next id is fresh. -/
def RegWF (reg : ToolRegistry) : Prop :=
  ∀ p ∈ reg.tools, p.1 < reg.next_uuid

instance (reg : ToolRegistry) : Decidable (RegInv reg) := by
  unfold RegInv; infer_instance

instance (reg : ToolRegistry) : Decidable (RegWF reg) := by
  unfold RegWF; exact List.decidableBAll _ _

end Sandbox

namespace AgentZeroCore

/-! ## agent_zero.py: class AgentZeroInstance

The three phase methods are marked in the source as stand-ins for inference
calls (the planner comment reads: in production, this calls the LLM), and
the spec names the inference call as a suspension point of the loop; the
possibility of such a call raising is modelled by an explicit fault record,
one slot per phase, with the all-none record corresponding to the
deterministic in-repository stand-ins. -/

/-- One entry of the append-only execution log of the base agent. -/
inductive BaseLogEntry
  | planning (actions : List String)
  | execution (step : Nat) (action : String)
  | reflection
deriving DecidableEq, Repr

/-- agent_zero.py: the mutable fields of AgentZeroInstance that the task
loop touches. -/
structure BaseAgent where
  id : String
  config : AgentConfig
  state : AgentState := .idle
  current_task : Option String := none
  execution_log : List BaseLogEntry := []
deriving DecidableEq, Repr

/-- The per-call faults injected at the collaborator suspension points of
the Plan, Act and Reflect phases; none means the phase runs the
deterministic stand-in code. -/
structure BaseFaults where
  plan_fault : Option PyErr := none
  exec_fault : Option PyErr := none
  reflect_fault : Option PyErr := none
deriving DecidableEq, Repr

/-- The dict returned by AgentZeroInstance.execute_task. -/
inductive BaseOutcome
  | success (agent_id task_id : String) (completed_steps steps : Nat)
  | error (msg : String)
deriving DecidableEq, Repr

/-- AgentZeroInstance._plan: the fixed three-step plan. -/
def basePlanSteps (_task : Task) : List String :=
  ["analyze", "execute", "verify"]

/-- AgentZeroInstance._execute_plan: iterate the steps in order, breaking
once max_steps is reached, logging one execution entry per step. -/
def baseExecutePlan (ag : BaseAgent) (steps : List String) : BaseAgent × Nat :=
  let executed := steps.take ag.config.max_steps
  ({ ag with execution_log :=
      ag.execution_log ++ executed.enum.map (fun p => .execution p.1 p.2) },
   executed.length)

/-- AgentZeroInstance.execute_task: the Plan, Act, Reflect loop with the
except-branch capturing a raised fault.  Returns the mutated agent, the
mutated task and the outcome dict. -/
def BaseAgent.execute_task (f : BaseFaults) (ag : BaseAgent) (task : Task) :
    BaseAgent × Task × BaseOutcome :=
  let ag := { ag with current_task := some task.id, state := .thinking }
  let task := { task with status := .thinking }
  match f.plan_fault with
  | some e =>
    ({ ag with state := .error }, { task with status := .error, error := some e.msg },
     .error e.msg)
  | none =>
    let plan := basePlanSteps task
    let ag := { ag with execution_log := ag.execution_log ++ [BaseLogEntry.planning plan] }
    let ag := { ag with state := .executing }
    let task := { task with status := .executing }
    match f.exec_fault with
    | some e =>
      ({ ag with state := .error }, { task with status := .error, error := some e.msg },
       .error e.msg)
    | none =>
      let ep := baseExecutePlan ag plan
      let ag := ep.1
      let completed := ep.2
      match f.reflect_fault with
      | some e =>
        ({ ag with state := .error }, { task with status := .error, error := some e.msg },
         .error e.msg)
      | none =>
        let ag := { ag with execution_log := ag.execution_log ++ [BaseLogEntry.reflection] }
        let ag := { ag with state := .completed }
        let task := { task with
                      status := .completed
                      result := some ("completed_steps " ++ toString completed) }
        (ag, task, .success ag.id task.id completed ag.execution_log.length)

end AgentZeroCore

namespace Enhanced

open Sandbox

/-! ## enhanced_agent.py: class EnhancedAgentZero

The unified memory collaborator is embedded from memory_system.py: recall
never raises (its knowledge-graph search failure is caught internally and
degrades to an empty result list), while memorize raises RuntimeError when
the graphiti client was never set (memory_system.py, add_episode), and is
otherwise a write to the external graph whose outcome at each of the two
call sites in execute_task is supplied by the oracle record Collab. -/

/-- The slice of UnifiedMemory that execute_task observes: whether the
graphiti client is set, and the combined record list a recall would
return. -/
structure Mem where
  graphiti_set : Bool
  recall_combined : List String := []
deriving DecidableEq, Repr

/-- UnifiedMemory.memorize at one call site: raises when the graphiti
client is unset, otherwise the external write has the supplied outcome. -/
def memorizeAt (memory : Option Mem) (ext : Except PyErr Unit) : Except PyErr Unit :=
  match memory with
  | none => .ok ()
  | some mem => if mem.graphiti_set then ext else .error { msg := "Graphiti not initialized" }

/-- UnifiedMemory.recall on the task description (no query embedding, so
only the knowledge-graph side runs; its failures are caught internally). -/
def recallCombined (memory : Option Mem) : List String :=
  match memory with
  | none => []
  | some mem => if mem.graphiti_set then mem.recall_combined else []

/-- enhanced_agent.py: dataclass EvolutionRecord; the changes dict has the
two keys new_tools_created and strategy_changed. -/
structure EvolutionRecord where
  timestamp : Nat := 0
  trigger : String
  new_tools_created : Nat
  strategy_changed : Bool
  success : Bool
deriving DecidableEq, Repr

/-- enhanced_agent.py: dataclass AgentMetrics. -/
structure AgentMetrics where
  tasks_completed : Nat := 0
  tasks_failed : Nat := 0
  tools_created : Nat := 0
  tools_used : Nat := 0
  memory_entries : Nat := 0
  avg_execution_time_ms : Nat := 0
  success_rate : ℚ := 1
deriving DecidableEq, Repr

/-- One step of the plan produced by _think. -/
structure PlanStep where
  action : String
  description : String
deriving DecidableEq, Repr

/-- The plan dict produced by _think. -/
structure Plan where
  task : String
  context : List String
  steps : List PlanStep
  tools_needed : List String
  estimated_steps : Nat
deriving DecidableEq, Repr

/-- One step-result dict collected by _act.  The tool branch sets the tool,
result and success keys; the no-tool branch leaves them absent (success is
none), which _reflect reads back with a default of true. -/
structure StepResult where
  step : Nat
  action : String
  tool : Option ToolId := none
  result : Option String := none
  success : Option Bool := none
deriving DecidableEq, Repr

/-- The dict returned by _act. -/
structure ActResult where
  steps_completed : Nat
  details : List StepResult
deriving DecidableEq, Repr

/-- The reflection dict produced by _reflect. -/
structure Reflection where
  total_steps : Nat
  failed_steps : Nat
  should_evolve : Bool
  success_rate : ℚ
  insights : List String
deriving DecidableEq, Repr

/-- Entries of the enhanced agent execution log. -/
inductive LogEntry
  | think (plan : Plan)
  | reflect (r : Reflection)
deriving DecidableEq, Repr

/-- enhanced_agent.py: the mutable fields of EnhancedAgentZero that
execute_task touches. -/
structure EAgent where
  id : String
  config : AgentConfig
  state : AgentState := .idle
  execution_log : List LogEntry := []
  memory : Option Mem := none
  tools : ToolRegistry
  evolution_history : List EvolutionRecord := []
  metrics : AgentMetrics := {}
deriving DecidableEq, Repr

/-- The per-call collaborator behavior: the sandboxed tool body, the
outcomes of the two external graph writes (used only when the client is
set), and the measured wall-clock duration. -/
structure Collab where
  run : SandboxRun
  memorize_start : Except PyErr Unit := .ok ()
  memorize_end : Except PyErr Unit := .ok ()
  elapsed_ms : Nat := 0

/-- The dict returned by EnhancedAgentZero.execute_task. -/
inductive EOutcome
  | success (agent_id task_id : String) (plan : Plan) (result : ActResult)
      (reflection : Reflection) (execution_time_ms : Nat)
  | error (agent_id task_id msg : String)
deriving DecidableEq, Repr

/-- EnhancedAgentZero._select_tool: the fixed action-to-tool-name map,
then a name lookup over the registry returning the first matching id. -/
def action_tool_map (action : String) : Option String :=
  if action = "analyze" then some "memory_recall"
  else if action = "gather" then some "web_search"
  else if action = "execute" then some "code_execute"
  else if action = "verify" then some "memory_store"
  else none

/-- Name search over the insertion-ordered tool dict (first match). -/
def findToolByName (l : List (ToolId × ToolDefinition)) (nm : String) : Option ToolId :=
  match l with
  | [] => none
  | (tid, t) :: rest => if t.name = nm then some tid else findToolByName rest nm

def EAgent._select_tool (ag : EAgent) (action : String) : Option ToolId :=
  match action_tool_map action with
  | none => none
  | some nm => findToolByName ag.tools.tools nm

/-- EnhancedAgentZero._think: set the state, recall context, take the
first three records, build the fixed four-step plan and log it. -/
def EAgent._think (ag : EAgent) (task : Task) : EAgent × Plan :=
  let ag := { ag with state := .thinking }
  let relevant_context := (recallCombined ag.memory).take 3
  let available_tools := ag.tools.get_tools (some ag.id)
  let plan : Plan :=
    { task := task.description
      context := relevant_context
      steps := [ { action := "analyze", description := "Analyze task requirements" },
                 { action := "gather", description := "Gather necessary information" },
                 { action := "execute", description := "Execute main task" },
                 { action := "verify", description := "Verify results" } ]
      tools_needed := (available_tools.take 5).map (fun t => t.name)
      estimated_steps := 4 }
  ({ ag with execution_log := ag.execution_log ++ [LogEntry.think plan] }, plan)

/-- The body of the _act loop for one enumerated step. -/
def actStep (run : SandboxRun) (task : Task) (acc : EAgent × List StepResult)
    (p : Nat × PlanStep) : EAgent × List StepResult :=
  let ag := acc.1
  match ag._select_tool p.2.action with
  | some tid =>
    let er := ag.tools.execute_tool run tid ag.id
      ("task " ++ task.description ++ " step " ++ p.2.action)
    let sr : StepResult :=
      { step := p.1
        action := p.2.action
        tool := some tid
        result := er.1.result
        success := some er.1.error.isNone }
    ({ ag with
       tools := er.2
       metrics := { ag.metrics with tools_used := ag.metrics.tools_used + 1 } },
     acc.2 ++ [sr])
  | none =>
    (ag, acc.2 ++ [{ step := p.1, action := p.2.action, result := some "completed" }])

/-- EnhancedAgentZero._act: set the state and run every plan step in order
(there is no max_steps break in the enhanced override). -/
def EAgent._act (ag : EAgent) (run : SandboxRun) (plan : Plan) (task : Task) :
    EAgent × ActResult :=
  let ag := { ag with state := .executing }
  let r := plan.steps.enum.foldl (actStep run task) (ag, [])
  (r.1, { steps_completed := r.2.length, details := r.2 })

/-- The pure reflection computation of _reflect as a function of the
step-result sequence: a step counts as failed when its success key is
present and false (the absent key defaults to true). -/
def reflectionOf (steps : List StepResult) : Reflection :=
  let failed := (steps.filter (fun s => ! s.success.getD true)).length
  let total := steps.length
  let success_rate : ℚ := if total = 0 then 1 else 1 - (failed : ℚ) / (total : ℚ)
  { total_steps := total
    failed_steps := failed
    should_evolve := decide ((failed : ℚ) > (total : ℚ) / 2)
    success_rate := success_rate
    insights :=
      (if failed > 0 then
        ["Failed " ++ toString failed ++ " steps - consider creating new tools"] else [])
      ++ (if success_rate > (9 : ℚ) / 10 then
        ["High success rate - consider generalizing this approach"] else []) }

/-- EnhancedAgentZero._reflect: set the state to idle, compute the
reflection and log it. -/
def EAgent._reflect (ag : EAgent) (result : ActResult) : EAgent × Reflection :=
  let ag := { ag with state := .idle }
  let r := reflectionOf result.details
  ({ ag with execution_log := ag.execution_log ++ [LogEntry.reflect r] }, r)

/-- EnhancedAgentZero._evolve: guarded again on should_evolve; registers
one auto-generated tool attributed to this agent, bumps tools_created and
appends one EvolutionRecord whose changes report one new tool. -/
def EAgent._evolve (ag : EAgent) (reflection : Reflection) : EAgent × Bool :=
  if ! reflection.should_evolve then (ag, false)
  else
    let tools' := (ag.tools.register_tool
      ("autogen_" ++ toString ag.tools.tools.length)
      "Auto-generated tool after evolution"
      "input string schema" "autogen tool body" ag.id).2
    let evolution : EvolutionRecord :=
      { trigger := "low_success_rate"
        new_tools_created := 1
        strategy_changed := true
        success := true }
    ({ ag with
       tools := tools'
       metrics := { ag.metrics with tools_created := ag.metrics.tools_created + 1 }
       evolution_history := ag.evolution_history ++ [evolution] }, true)

/-- EnhancedAgentZero._update_metrics: recompute the task success rate and
fold the latest duration into the incremental average (int() of a
non-negative float division is floor, matching Nat division). -/
def EAgent._update_metrics (ag : EAgent) (execution_time_ms : Nat) : EAgent :=
  let m := ag.metrics
  let total_tasks := m.tasks_completed + m.tasks_failed
  let m := if total_tasks > 0 then
      { m with success_rate := (m.tasks_completed : ℚ) / (total_tasks : ℚ) } else m
  let m := if m.tasks_completed > 1 then
      { m with avg_execution_time_ms :=
          (m.avg_execution_time_ms * (m.tasks_completed - 1) + execution_time_ms)
            / m.tasks_completed }
    else { m with avg_execution_time_ms := execution_time_ms }
  { ag with metrics := m }

/-- EnhancedAgentZero.execute_task.  The first memorize happens before the
try block, so its exception propagates (Except.error) with no counter
touched; inside the try block the phases run, the second memorize may
raise into the except branch (tasks_failed increment, error dict), and on
the success path tasks_completed is incremented, metrics updated, and the
evolution step runs whenever the reflection says so.  task.status is
never written on this override. -/
def EAgent.execute_task (c : Collab) (ag : EAgent) (task : Task) :
    EAgent × Task × Except PyErr EOutcome :=
  match memorizeAt ag.memory c.memorize_start with
  | .error e => (ag, task, .error e)
  | .ok () =>
    let tp := ag._think task
    let plan := tp.2
    let ar := tp.1._act c.run plan task
    let result := ar.2
    let rr := ar.1._reflect result
    let ag := rr.1
    let reflection := rr.2
    match memorizeAt ag.memory c.memorize_end with
    | .error e =>
      ({ ag with metrics := { ag.metrics with tasks_failed := ag.metrics.tasks_failed + 1 } },
       task, .ok (.error ag.id task.id e.msg))
    | .ok () =>
      let ag := { ag with
                  metrics := { ag.metrics with
                               tasks_completed := ag.metrics.tasks_completed + 1 } }
      let ag := ag._update_metrics c.elapsed_ms
      let ag := if reflection.should_evolve then (ag._evolve reflection).1 else ag
      (ag, task, .ok (.success ag.id task.id plan result reflection c.elapsed_ms))

end Enhanced

namespace Orchestrator

open Enhanced

/-! ## enhanced_agent.py: class MultiAgentOrchestrator.execute_parallel

The list comprehension that builds the coroutines evaluates
agent_ids[i % len(agent_ids)] eagerly for i = 0, 1, ...; with zero agents
the first modulo raises ZeroDivisionError out of execute_parallel.  Each
slot of the gathered result is either the dict returned by the assigned
agent execute_task or, because return_exceptions is set, the exception it
raised, captured in place; the per-slot outcome as a function of the
assigned agent and the task is supplied as an oracle, abstracting the
shared mutable agent state and the interleaving.  The counting semaphore
that bounds the number of in-flight executions is modelled separately as a
small-step system (SemStep below). -/

/-- One slot of the gathered result list: the returned outcome dict or the
in-place captured exception. -/
abbrev ParallelOutcome := Except PyErr EOutcome

/-- Python %: raises ZeroDivisionError on a zero divisor. -/
def pyMod (a b : Nat) : Except PyErr Nat :=
  if b = 0 then .error { msg := "ZeroDivisionError" } else .ok (a % b)

/-- The eager left-to-right construction of the coroutine list: for the
task at index i, look up the agent at i modulo the agent count (raising on
zero agents) and take the outcome of running the task on that agent. -/
def distribute (runTask : String → Task → ParallelOutcome) (agent_ids : List String)
    (i : Nat) (tasks : List Task) : Except PyErr (List ParallelOutcome) :=
  match tasks with
  | [] => .ok []
  | t :: rest =>
    match pyMod i agent_ids.length with
    | .error e => .error e
    | .ok j =>
      match distribute runTask agent_ids (i + 1) rest with
      | .error e => .error e
      | .ok outs => .ok (runTask (agent_ids.getD j "") t :: outs)

/-- MultiAgentOrchestrator.execute_parallel.  max_concurrent only shapes
the scheduling (see SemStep); the value eventually returned by the gather
is the round-robin distribution. -/
def execute_parallel (runTask : String → Task → ParallelOutcome)
    (agent_ids : List String) (tasks : List Task) (_max_concurrent : Nat) :
    Except PyErr (List ParallelOutcome) :=
  distribute runTask agent_ids 0 tasks

/-- The scheduling phase of one submitted task under the admission gate. -/
inductive SemPhase
  | pending
  | running
  | done
deriving DecidableEq, Repr

/-- Number of task executions currently in flight. -/
def runningCount : List SemPhase → Nat
  | [] => 0
  | p :: rest => (if p = SemPhase.running then 1 else 0) + runningCount rest

/-- One scheduler step of execute_with_limit under asyncio.Semaphore:
a pending task may enter the guarded region only while fewer than
max_concurrent are in flight (acquire), and an in-flight task may finish
(release). -/
inductive SemStep (maxC : Nat) : List SemPhase → List SemPhase → Prop
  | start (s : List SemPhase) (i : Nat) (hp : s.get? i = some .pending)
      (hc : runningCount s < maxC) : SemStep maxC s (s.set i .running)
  | finish (s : List SemPhase) (i : Nat) (hr : s.get? i = some .running) :
      SemStep maxC s (s.set i .done)

/-- States reachable by the scheduler from n submitted tasks. -/
def SemReachable (maxC n : Nat) (s : List SemPhase) : Prop :=
  Relation.ReflTransGen (SemStep maxC) (List.replicate n .pending) s

end Orchestrator

namespace Evolution

/-! ## evolution.py: class SelfEvolver

The ledger lives in memory as evolution_history and on disk as the JSON
rendering written by _save_history; the file system is modelled by carrying
the serialized list in the evolver state.  json.dump(default=str) renders a
datetime via str; a timestamp value is therefore either a datetime (dt,
carrying its str rendering) or a plain string (asStr), and
EvolutionRecord(**r) in _load_history stores the decoded JSON string back
into the field without parsing it. -/

/-- A Python value sitting in the timestamp field: a datetime (identified
by its str rendering) or a string.  The two are never equal in Python. -/
inductive TimeVal
  | dt (s : String)
  | asStr (s : String)
deriving DecidableEq, Repr

/-- str() of the value, as applied by json.dump(default=str). -/
def TimeVal.render : TimeVal → String
  | .dt s => s
  | .asStr s => s

/-- evolution.py: dataclass EvolutionRecord. -/
structure EvolutionRecord where
  version : Int
  timestamp : TimeVal
  trigger_pattern : String
  changes : String
  success : Bool
deriving DecidableEq, Repr

/-- The JSON object serialized for one record: vars(r) dumped with
default=str.  Version, strings and the success flag survive the JSON
round trip unchanged. -/
structure RecordJson where
  version : Int
  timestamp : String
  trigger_pattern : String
  changes : String
  success : Bool
deriving DecidableEq, Repr

/-- One record of SelfEvolver._save_history. -/
def saveRecord (r : EvolutionRecord) : RecordJson :=
  { version := r.version
    timestamp := r.timestamp.render
    trigger_pattern := r.trigger_pattern
    changes := r.changes
    success := r.success }

/-- One record of SelfEvolver._load_history: EvolutionRecord(**r) assigns
the decoded fields directly, so the timestamp arrives as a string. -/
def loadRecord (j : RecordJson) : EvolutionRecord :=
  { version := j.version
    timestamp := .asStr j.timestamp
    trigger_pattern := j.trigger_pattern
    changes := j.changes
    success := j.success }

/-- SelfEvolver._save_history on an in-memory ledger. -/
def _save_history (h : List EvolutionRecord) : List RecordJson := h.map saveRecord

/-- SelfEvolver._load_history on a serialized ledger. -/
def _load_history (d : List RecordJson) : List EvolutionRecord := d.map loadRecord

/-- ", ".join(patterns). -/
def joinComma : List String → String
  | [] => ""
  | [a] => a
  | a :: rest => a ++ ", " ++ joinComma rest

/-- evolution.py: the mutable state of SelfEvolver: the in-memory ledger,
the system prompt file and the serialized ledger file. -/
structure SelfEvolver where
  evolution_history : List EvolutionRecord := []
  system_prompt : String := ""
  saved_history : List RecordJson := []
deriving DecidableEq, Repr

/-- SelfEvolver.evolve: a no-op on an empty pattern list; otherwise append
exactly one record with version = ledger length + 1, save the history and
extend the system prompt.  The wall-clock datetime rendering is supplied
as now. -/
def SelfEvolver.evolve (ev : SelfEvolver) (patterns : List String) (now : String) :
    SelfEvolver × Bool :=
  if patterns.isEmpty then (ev, false)
  else
    let new_version : Int := ev.evolution_history.length + 1
    let record : EvolutionRecord :=
      { version := new_version
        timestamp := .dt now
        trigger_pattern := joinComma patterns
        changes := "Fixed patterns: " ++ joinComma patterns
        success := true }
    let history := ev.evolution_history ++ [record]
    ({ ev with
       evolution_history := history
       saved_history := _save_history history
       system_prompt := ev.system_prompt ++ "\n\n<!-- EVOLVED v" ++ toString new_version
         ++ ": Fixed " ++ joinComma patterns ++ " -->" }, true)

/-- K successive applications of evolve from a given state, each with its
pattern list and datetime. -/
def SelfEvolver.evolveAll (ev : SelfEvolver) (inputs : List (List String × String)) :
    SelfEvolver :=
  inputs.foldl (fun e p => (e.evolve p.1 p.2).1) ev

end Evolution

/-! ## Statement helpers and concrete instances -/

namespace Enhanced

/-- Whether an execute_task outcome is a returned success dict whose
reflection requested evolution. -/
def outcomeShouldEvolve : Except PyErr EOutcome → Bool
  | .ok (.success _ _ _ _ r _) => r.should_evolve
  | _ => false

/-- Whether an execute_task call propagated an exception (as opposed to
returning a dict). -/
def outcomeRaised : Except PyErr EOutcome → Bool
  | .error _ => true
  | .ok _ => false

/-- The fields of an agent untouched by the Think, Act and Reflect phases:
identity, configuration, memory handle, evolution ledger and the three
task and tool creation counters. -/
def SameCore (a b : EAgent) : Prop :=
  a.id = b.id ∧ a.config = b.config ∧ a.memory = b.memory ∧
  a.evolution_history = b.evolution_history ∧
  a.metrics.tasks_completed = b.metrics.tasks_completed ∧
  a.metrics.tasks_failed = b.metrics.tasks_failed ∧
  a.metrics.tools_created = b.metrics.tools_created

/-- The auto-generated tool that _evolve registers for the given agent. -/
def autogenTool (ag : EAgent) : Sandbox.ToolDefinition :=
  { id := ag.tools.next_uuid
    name := "autogen_" ++ toString ag.tools.tools.length
    description := "Auto-generated tool after evolution"
    parameters := "input string schema"
    code := "autogen tool body"
    created_by := ag.id }

/-- The EvolutionRecord that _evolve appends. -/
def evolveRecord : EvolutionRecord :=
  { trigger := "low_success_rate"
    new_tools_created := 1
    strategy_changed := true
    success := true }

end Enhanced

namespace Orchestrator

open Enhanced

/-- The value of the gathered result list: for the task at index i, the
outcome of the agent at index i modulo the agent count. -/
def roundRobin (runTask : String → Task → ParallelOutcome)
    (agent_ids : List String) (tasks : List Task) : List ParallelOutcome :=
  tasks.enum.map (fun p => runTask (agent_ids.getD (p.1 % agent_ids.length) "") p.2)

end Orchestrator

namespace Evolution

/-- Normalize a record timestamp to the string form it takes after one
save/load round trip. -/
def normRecord (r : EvolutionRecord) : EvolutionRecord :=
  { r with timestamp := .asStr r.timestamp.render }

/-- The ledger numbering invariant: the record at index i carries
version i + 1. -/
def Versioned (h : List EvolutionRecord) : Prop :=
  ∀ i r, h.get? i = some r → r.version = (i : Int) + 1

end Evolution

/-! Concrete inputs for counterexamples and witnesses. -/

namespace Claims

open Sandbox AgentZeroCore Enhanced Orchestrator Evolution

/-- An enhanced agent with no memory collaborator and an empty registry. -/
def c1Agent : EAgent := { id := "agent-1", config := { name := "base" }, tools := {} }

def c1Task : Task := { id := "t1", description := "Find X" }

def c1Collab : Collab := { run := stubRun }

/-- Three step results, two of them failed. -/
def c2Example : List StepResult :=
  [ { step := 0, action := "analyze", success := some false },
    { step := 1, action := "gather", success := some true },
    { step := 2, action := "execute", success := some false } ]

/-- An agent whose configuration has auto_evolve disabled. -/
def c3Agent : EAgent :=
  { id := "a1", config := { name := "c3", auto_evolve := false }, tools := ToolRegistry.new }

def c3Task : Task := { id := "t3", description := "Find X" }

/-- A collaborator whose sandboxed tool body always raises. -/
def c3Collab : Collab := { run := fun _ _ => .error "sandbox failure" }

/-- A registry holding one tool with id 0 and no executions. -/
def c4Reg : ToolRegistry :=
  (({} : ToolRegistry).register_tool "t" "a tool" "schema t" "body t" "system").2

/-- The tool held by c4Reg. -/
def c4Tool : ToolDefinition :=
  { id := 0, name := "t", description := "a tool", parameters := "schema t"
    code := "body t", created_by := "system" }

/-- A per-slot outcome oracle standing for one agent run per task. -/
def c5Run : String → Task → ParallelOutcome :=
  fun aid task => .ok (.error aid task.id "stub")

def c5Tasks : List Task :=
  [ { id := "p1" }, { id := "p2" }, { id := "p3" }, { id := "p4" }, { id := "p5" } ]

/-- A one-record ledger whose timestamp is a datetime value. -/
def c7Ledger : List Evolution.EvolutionRecord :=
  [ { version := 1
      timestamp := .dt "2025-01-01 03:00:00"
      trigger_pattern := "code_generation_issues"
      changes := "Fixed patterns: code_generation_issues"
      success := true } ]

/-- An agent whose memory collaborator was configured but whose graphiti
client was never set (memory_system initialization failed). -/
def c8Agent : EAgent :=
  { id := "a8", config := { name := "c8" }, tools := {}
    memory := some { graphiti_set := false } }

def c8Task : Task := { id := "t8", description := "remember me" }

def c8Collab : Collab := { run := stubRun }

/-- An agent used to witness the amended counter theorem on the returning
path (no memory collaborator). -/
def c8wAgent : EAgent := { id := "a8w", config := { name := "c8w" }, tools := {} }

/-- The first built-in tool of a fresh registry. -/
def c9Tool : ToolDefinition :=
  { id := 0, name := "web_search", description := "Search the web for information"
    parameters := "schema web_search", code := "body web_search", created_by := "system" }

/-- A reflection that requests evolution (all four steps failed). -/
def c3Reflection : Reflection :=
  { total_steps := 4, failed_steps := 4, should_evolve := true
    success_rate := 0, insights := [] }

end Claims

/-! ## Lemmas and claim theorems -/

namespace Sandbox

theorem lookup_dictSet_self (l : List (ToolId × ToolDefinition)) (k : ToolId)
    (t v : ToolDefinition) (h : lookupTool l k = some t) :
    lookupTool (dictSet l k v) k = some v := by
  induction l with
  | nil => simp [lookupTool] at h
  | cons p rest ih =>
    obtain ⟨k', v'⟩ := p
    by_cases hk : k' = k
    · simp [dictSet, lookupTool, hk]
    · simp only [lookupTool, hk, if_false] at h
      simp [dictSet, lookupTool, hk, ih h]

theorem lookup_dictSet_other (l : List (ToolId × ToolDefinition)) (k k2 : ToolId)
    (v : ToolDefinition) (h : k2 ≠ k) :
    lookupTool (dictSet l k v) k2 = lookupTool l k2 := by
  induction l with
  | nil => simp [dictSet, lookupTool, Ne.symm h]
  | cons p rest ih =>
    obtain ⟨k', v'⟩ := p
    by_cases hk : k' = k
    · subst hk
      simp [dictSet, lookupTool, Ne.symm h, ih]
    · simp [dictSet, lookupTool, hk, ih]

theorem dictSet_absent (l : List (ToolId × ToolDefinition)) (k : ToolId)
    (v : ToolDefinition) (h : ∀ p ∈ l, p.1 ≠ k) :
    dictSet l k v = l ++ [(k, v)] := by
  induction l with
  | nil => simp [dictSet]
  | cons p rest ih =>
    obtain ⟨k', v'⟩ := p
    have hk : k' ≠ k := h (k', v') (List.mem_cons_self _ _)
    simp [dictSet, hk, ih (fun q hq => h q (List.mem_cons_of_mem _ hq))]

theorem lookup_append_absent (l : List (ToolId × ToolDefinition)) (k : ToolId)
    (v : ToolDefinition) (h : ∀ p ∈ l, p.1 ≠ k) :
    lookupTool (l ++ [(k, v)]) k = some v := by
  induction l with
  | nil => simp [lookupTool]
  | cons p rest ih =>
    obtain ⟨k', v'⟩ := p
    have hk : k' ≠ k := h (k', v') (List.mem_cons_self _ _)
    simp [lookupTool, hk, ih (fun q hq => h q (List.mem_cons_of_mem _ hq))]

theorem sumUsage_dictSet_bump (l : List (ToolId × ToolDefinition)) (k : ToolId)
    (t : ToolDefinition) (h : lookupTool l k = some t) :
    ((dictSet l k { t with usage_count := t.usage_count + 1 }).map
        (fun p => p.2.usage_count)).sum
      = (l.map (fun p => p.2.usage_count)).sum + 1 := by
  induction l with
  | nil => simp [lookupTool] at h
  | cons p rest ih =>
    obtain ⟨k', v'⟩ := p
    by_cases hk : k' = k
    · simp only [lookupTool, hk, if_true, Option.some.injEq] at h
      subst h
      simp [dictSet, hk]
      omega
    · simp only [lookupTool, hk, if_false] at h
      simp [dictSet, hk, ih h]
      omega

/-- C4.  For an absent tool_id, execute_tool returns (it is a total
function) the error-carrying record and leaves the registry untouched;
for a present tool_id whose body runs successfully, the usage count of
that tool is incremented by one and the execution record is appended to
the history. -/
theorem c4_execute_tool_contract :
    ∀ (reg : ToolRegistry) (run : SandboxRun) (tid : ToolId) (aid args : String),
    (lookupTool reg.tools tid = none →
       reg.execute_tool run tid aid args
         = ({ tool_id := tid, agent_id := aid, arguments := args,
              error := some ("Tool " ++ toString tid ++ " not found") }, reg))
    ∧ (∀ t, lookupTool reg.tools tid = some t → ∀ res, run t args = .ok res →
         lookupTool (reg.execute_tool run tid aid args).2.tools tid
             = some { t with usage_count := t.usage_count + 1 }
         ∧ (reg.execute_tool run tid aid args).2.executions
             = reg.executions ++ [(reg.execute_tool run tid aid args).1]
         ∧ (reg.execute_tool run tid aid args).1.error = none) := by
  intro reg run tid aid args
  constructor
  · intro h
    simp [ToolRegistry.execute_tool, h]
  · intro t ht res hr
    refine ⟨?_, ?_, ?_⟩ <;>
      simp [ToolRegistry.execute_tool, ht, hr, lookup_dictSet_self _ _ _ _ ht]

/-- Witness for C4 at a concrete registry: id 99 is absent from the
fresh built-in registry; id 0 is the single tool of c4Reg and a
successful stub run bumps its usage count to one and appends the
record. -/
theorem c4_witness :
    (lookupTool ToolRegistry.new.tools 99 = none
      ∧ ToolRegistry.new.execute_tool stubRun 99 "agent-x" "args"
          = ({ tool_id := 99, agent_id := "agent-x", arguments := "args",
               error := some "Tool 99 not found" }, ToolRegistry.new))
    ∧ (lookupTool Claims.c4Reg.tools 0 = some Claims.c4Tool
      ∧ stubRun Claims.c4Tool "args" = Except.ok "executed t"
      ∧ lookupTool (Claims.c4Reg.execute_tool stubRun 0 "agent-x" "args").2.tools 0
          = some { Claims.c4Tool with usage_count := 1 }
      ∧ (Claims.c4Reg.execute_tool stubRun 0 "agent-x" "args").2.executions
          = Claims.c4Reg.executions
              ++ [(Claims.c4Reg.execute_tool stubRun 0 "agent-x" "args").1]
      ∧ (Claims.c4Reg.execute_tool stubRun 0 "agent-x" "args").1.error = none) :=
  ⟨⟨by decide,
    (c4_execute_tool_contract ToolRegistry.new stubRun 99 "agent-x" "args").1 (by decide)⟩,
   ⟨by decide, rfl,
    (c4_execute_tool_contract Claims.c4Reg stubRun 0 "agent-x" "args").2
      Claims.c4Tool (by decide) "executed t" rfl⟩⟩

/-- C9.  The registry invariant (total usage count equals the length of
the execution history) is preserved: register_tool appends one tool with
usage_count zero and leaves the history alone; execute_tool on a known id
bumps exactly that tool and appends exactly one record; execute_tool on an
unknown id returns the registry unchanged. -/
theorem c9_usage_matches_history :
    ∀ (reg : ToolRegistry), RegWF reg → RegInv reg →
    (∀ name d ps code cb,
        (reg.register_tool name d ps code cb).2.tools
            = reg.tools ++ [(reg.next_uuid,
                { id := reg.next_uuid, name := name, description := d,
                  parameters := ps, code := code, created_by := cb,
                  usage_count := 0 })]
        ∧ RegInv (reg.register_tool name d ps code cb).2
        ∧ RegWF (reg.register_tool name d ps code cb).2
        ∧ (reg.register_tool name d ps code cb).2.executions = reg.executions)
    ∧ (∀ run tid aid args t, lookupTool reg.tools tid = some t →
        RegInv (reg.execute_tool run tid aid args).2
        ∧ (reg.execute_tool run tid aid args).2.executions
            = reg.executions ++ [(reg.execute_tool run tid aid args).1]
        ∧ lookupTool (reg.execute_tool run tid aid args).2.tools tid
            = some { t with usage_count := t.usage_count + 1 }
        ∧ (∀ tid2, tid2 ≠ tid →
            lookupTool (reg.execute_tool run tid aid args).2.tools tid2
              = lookupTool reg.tools tid2))
    ∧ (∀ run tid aid args, lookupTool reg.tools tid = none →
        (reg.execute_tool run tid aid args).2 = reg) := by
  intro reg hwf hinv
  have hfresh : ∀ p ∈ reg.tools, p.1 ≠ reg.next_uuid := by
    intro p hp
    exact Nat.ne_of_lt (hwf p hp)
  refine ⟨?_, ?_, ?_⟩
  · intro name d ps code cb
    have habs := dictSet_absent reg.tools reg.next_uuid
      { id := reg.next_uuid, name := name, description := d, parameters := ps,
        code := code, created_by := cb } hfresh
    refine ⟨?_, ?_, ?_, ?_⟩
    · simpa [ToolRegistry.register_tool] using habs
    · simp only [RegInv, sumUsage, ToolRegistry.register_tool, habs]
      simpa [List.map_append] using hinv
    · intro p hp
      simp only [ToolRegistry.register_tool, habs, List.mem_append,
        List.mem_singleton] at hp ⊢
      rcases hp with hp | hp
      · exact Nat.lt_succ_of_lt (hwf p hp)
      · subst hp; exact Nat.lt_succ_self _
    · simp [ToolRegistry.register_tool]
  · intro run tid aid args t ht
    have hb := sumUsage_dictSet_bump reg.tools tid t ht
    rcases hr : run t args with res | e <;>
      refine ⟨?_, ?_, ?_, ?_⟩ <;>
        simp [ToolRegistry.execute_tool, ht, hr, RegInv, sumUsage, hb,
          lookup_dictSet_self _ _ _ _ ht] <;>
      first
        | (rw [RegInv, sumUsage] at hinv; omega)
        | (intro tid2 h2; exact lookup_dictSet_other _ _ _ _ h2)
  · intro run tid aid args h
    simp [ToolRegistry.execute_tool, h]

/-- Witness for C9 at the fresh built-in registry: both side conditions
hold there, and the instantiated conclusions are drawn for a
registration, a known execution on the web_search tool and an unknown
execution. -/
theorem c9_witness :
    RegWF ToolRegistry.new ∧ RegInv ToolRegistry.new
    ∧ RegInv (ToolRegistry.new.register_tool "x" "d" "p" "c" "a1").2
    ∧ RegInv (ToolRegistry.new.execute_tool stubRun 0 "a1" "z").2
    ∧ (ToolRegistry.new.execute_tool stubRun 77 "a1" "z").2 = ToolRegistry.new :=
  ⟨by decide, by decide,
   ((c9_usage_matches_history ToolRegistry.new (by decide) (by decide)).1
      "x" "d" "p" "c" "a1").2.1,
   ((c9_usage_matches_history ToolRegistry.new (by decide) (by decide)).2.1
      stubRun 0 "a1" "z" Claims.c9Tool (by decide)).1,
   (c9_usage_matches_history ToolRegistry.new (by decide) (by decide)).2.2
      stubRun 77 "a1" "z" (by decide)⟩

end Sandbox

/-! Small generic list facts used below. -/

theorem get?_append_lt {α : Type} (l l2 : List α) :
    ∀ i, i < l.length → (l ++ l2).get? i = l.get? i := by
  induction l with
  | nil => intro i h; simp at h
  | cons a rest ih =>
    intro i h
    cases i with
    | zero => rfl
    | succ n => exact ih n (by simpa using h)

theorem get?_concat_len {α : Type} (l : List α) (a : α) :
    (l ++ [a]).get? l.length = some a := by
  induction l with
  | nil => rfl
  | cons b rest ih => simpa using ih

theorem get?_some_lt {α : Type} (l : List α) :
    ∀ i a, l.get? i = some a → i < l.length := by
  induction l with
  | nil => intro i a h; simp at h
  | cons b rest ih =>
    intro i a h
    cases i with
    | zero => simp
    | succ n => simpa using ih n a (by simpa using h)

theorem enumFrom_get? {α : Type} (l : List α) :
    ∀ n i, (l.enumFrom n).get? i = (l.get? i).map (fun a => (n + i, a)) := by
  induction l with
  | nil => intro n i; simp
  | cons a rest ih =>
    intro n i
    cases i with
    | zero => simp [List.enumFrom]
    | succ m =>
      simp only [List.enumFrom, List.get?, ih (n + 1) m]
      cases rest.get? m <;> simp <;> omega

namespace Evolution

theorem versioned_append (h : List EvolutionRecord) (r : EvolutionRecord)
    (hv : Versioned h) (hr : r.version = (h.length : Int) + 1) :
    Versioned (h ++ [r]) := by
  intro i r' hget
  by_cases hi : i < h.length
  · rw [get?_append_lt h [r] i hi] at hget
    exact hv i r' hget
  · have hlt : i < h.length + 1 := by
      have := get?_some_lt (h ++ [r]) i r' hget
      simpa using this
    have hie : i = h.length := by omega
    subst hie
    rw [get?_concat_len] at hget
    cases hget
    exact hr

/-- The single-step behavior of SelfEvolver.evolve on a non-empty pattern
list: exactly one record is appended (prior records untouched) with
version = ledger length + 1. -/
theorem evolve_appends (ev : SelfEvolver) (patterns : List String) (now : String)
    (h : patterns ≠ []) :
    (ev.evolve patterns now).1.evolution_history
      = ev.evolution_history ++
        [{ version := (ev.evolution_history.length : Int) + 1
           timestamp := .dt now
           trigger_pattern := joinComma patterns
           changes := "Fixed patterns: " ++ joinComma patterns
           success := true }] := by
  cases patterns with
  | nil => exact absurd rfl h
  | cons p ps => simp [SelfEvolver.evolve]

theorem evolveAll_invariant :
    ∀ (inputs : List (List String × String)) (ev : SelfEvolver),
    (∀ p ∈ inputs, p.1 ≠ []) → Versioned ev.evolution_history →
    (SelfEvolver.evolveAll ev inputs).evolution_history.length
        = ev.evolution_history.length + inputs.length
    ∧ Versioned (SelfEvolver.evolveAll ev inputs).evolution_history := by
  intro inputs
  induction inputs with
  | nil => intro ev _ hv; exact ⟨rfl, hv⟩
  | cons p rest ih =>
    intro ev hall hv
    have hp : p.1 ≠ [] := hall p (List.mem_cons_self _ _)
    have hstep := evolve_appends ev p.1 p.2 hp
    have hv' : Versioned (ev.evolve p.1 p.2).1.evolution_history := by
      rw [hstep]
      exact versioned_append _ _ hv rfl
    have hrest := ih (ev.evolve p.1 p.2).1
      (fun q hq => hall q (List.mem_cons_of_mem _ hq)) hv'
    have hfold : SelfEvolver.evolveAll ev (p :: rest)
        = SelfEvolver.evolveAll (ev.evolve p.1 p.2).1 rest := rfl
    rw [hfold]
    refine ⟨?_, hrest.2⟩
    rw [hrest.1, hstep]
    simp
    omega

/-- C6.  SelfEvolver.evolve with a non-empty pattern list appends exactly
one record carrying version = ledger length + 1 and never alters prior
records; consequently, starting from the empty ledger, K applications give
a ledger of length K whose record at index i carries version i + 1. -/
theorem c6_append_only_ledger :
    (∀ (ev : SelfEvolver) (patterns : List String) (now : String), patterns ≠ [] →
      (ev.evolve patterns now).1.evolution_history
        = ev.evolution_history ++
          [{ version := (ev.evolution_history.length : Int) + 1
             timestamp := .dt now
             trigger_pattern := joinComma patterns
             changes := "Fixed patterns: " ++ joinComma patterns
             success := true }])
    ∧ (∀ inputs : List (List String × String), (∀ p ∈ inputs, p.1 ≠ []) →
        (SelfEvolver.evolveAll {} inputs).evolution_history.length = inputs.length
        ∧ Versioned (SelfEvolver.evolveAll {} inputs).evolution_history) := by
  refine ⟨evolve_appends, ?_⟩
  intro inputs hall
  have h := evolveAll_invariant inputs {} hall (by intro i r hget; simp at hget)
  simpa using h

/-- Witness for C6: two successive evolutions from the empty ledger. -/
theorem c6_witness :
    ((["code_generation_issues"] : List String) ≠ []
      ∧ (SelfEvolver.evolve {} ["code_generation_issues"] "2025-01-01").1.evolution_history
          = [{ version := 1
               timestamp := .dt "2025-01-01"
               trigger_pattern := "code_generation_issues"
               changes := "Fixed patterns: code_generation_issues"
               success := true }])
    ∧ ((SelfEvolver.evolveAll {}
          [(["code_generation_issues"], "2025-01-01"),
           (["response_too_verbose"], "2025-01-02")]).evolution_history.length = 2
      ∧ Versioned (SelfEvolver.evolveAll {}
          [(["code_generation_issues"], "2025-01-01"),
           (["response_too_verbose"], "2025-01-02")]).evolution_history) := by
  constructor
  · refine ⟨by simp, ?_⟩
    have h := c6_append_only_ledger.1 {} ["code_generation_issues"] "2025-01-01" (by simp)
    simpa [joinComma] using h
  · exact c6_append_only_ledger.2
      [(["code_generation_issues"], "2025-01-01"),
       (["response_too_verbose"], "2025-01-02")]
      (by intro p hp; fin_cases hp <;> simp)

/-- Counterexample for C7: a one-record ledger whose timestamp is a
datetime is not reproduced identically by a save/load round trip (the
timestamp comes back as the rendered string). -/
theorem c7_counterexample :
    _load_history (_save_history Claims.c7Ledger) ≠ Claims.c7Ledger := by
  decide

/-- C7 (amended).  A save/load round trip reproduces the ledger up to
normalizing each timestamp to its rendered string: order, length and the
version, trigger_pattern, changes and success fields are reproduced
exactly, and each reloaded timestamp is the string form of the saved
one. -/
theorem c7_roundtrip_normalizes :
    ∀ h : List EvolutionRecord,
      _load_history (_save_history h) = h.map normRecord := by
  intro h
  rw [_load_history, _save_history, List.map_map]
  rfl

end Evolution

namespace Orchestrator

theorem runningCount_replicate_pending (n : Nat) :
    runningCount (List.replicate n .pending) = 0 := by
  induction n with
  | zero => rfl
  | succ m ih => simpa [List.replicate, runningCount] using ih

theorem runningCount_set_start :
    ∀ (s : List SemPhase) (i : Nat), s.get? i = some .pending →
      runningCount (s.set i .running) = runningCount s + 1 := by
  intro s
  induction s with
  | nil => intro i h; simp at h
  | cons p rest ih =>
    intro i h
    cases i with
    | zero =>
      simp only [List.get?] at h
      cases h
      simp [List.set, runningCount]
      omega
    | succ n =>
      simp only [List.get?] at h
      simp only [List.set, runningCount]
      rw [ih n h]
      omega

theorem runningCount_set_finish :
    ∀ (s : List SemPhase) (i : Nat), s.get? i = some .running →
      runningCount (s.set i .done) + 1 = runningCount s := by
  intro s
  induction s with
  | nil => intro i h; simp at h
  | cons p rest ih =>
    intro i h
    cases i with
    | zero =>
      simp only [List.get?] at h
      cases h
      simp [List.set, runningCount]
      omega
    | succ n =>
      simp only [List.get?] at h
      simp only [List.set, runningCount]
      have := ih n h
      omega

/-- The admission gate keeps the number of in-flight executions at or
below max_concurrent in every reachable scheduler state. -/
theorem sem_inflight_bound (maxC n : Nat) :
    ∀ s, SemReachable maxC n s → runningCount s ≤ maxC := by
  intro s h
  unfold SemReachable at h
  induction h with
  | refl => simp [runningCount_replicate_pending]
  | tail hab hbc ih =>
    cases hbc with
    | start i hp hc =>
      rw [runningCount_set_start _ i hp]
      omega
    | finish i hr =>
      have := runningCount_set_finish _ i hr
      omega

theorem distribute_ok (runTask : String → Task → ParallelOutcome)
    (agent_ids : List String) (h : agent_ids ≠ []) :
    ∀ (tasks : List Task) (i : Nat),
      distribute runTask agent_ids i tasks
        = .ok ((tasks.enumFrom i).map
            (fun p => runTask (agent_ids.getD (p.1 % agent_ids.length) "") p.2)) := by
  have hn : agent_ids.length ≠ 0 := by
    intro hh
    exact h (List.eq_nil_of_length_eq_zero hh)
  intro tasks
  induction tasks with
  | nil => intro i; simp [distribute]
  | cons t ts ih =>
    intro i
    simp [distribute, pyMod, hn, List.enumFrom, ih (i + 1)]

/-- C5.  With at least one agent, execute_parallel returns one outcome per
task in input order: the gathered value is the round-robin list whose slot
i is the outcome of the agent at index i modulo the agent count on task i
(so an error outcome in one slot leaves every other slot untouched), and
every scheduler state reachable under the admission gate keeps at most
max_concurrent executions in flight. -/
theorem c5_parallel_distribution :
    ∀ (runTask : String → Task → ParallelOutcome) (agent_ids : List String)
      (tasks : List Task) (max_concurrent : Nat), agent_ids ≠ [] →
    execute_parallel runTask agent_ids tasks max_concurrent
        = .ok (roundRobin runTask agent_ids tasks)
    ∧ (roundRobin runTask agent_ids tasks).length = tasks.length
    ∧ (∀ i, (roundRobin runTask agent_ids tasks).get? i
         = (tasks.get? i).map
             (fun t => runTask (agent_ids.getD (i % agent_ids.length) "") t))
    ∧ (∀ s, SemReachable max_concurrent tasks.length s
         → runningCount s ≤ max_concurrent) := by
  intro runTask agent_ids tasks mc h
  refine ⟨?_, ?_, ?_, fun s => sem_inflight_bound mc tasks.length s⟩
  · rw [execute_parallel, distribute_ok runTask agent_ids h tasks 0]
    rfl
  · simp [roundRobin]
  · intro i
    rw [roundRobin, List.get?_map, List.enum, enumFrom_get?]
    cases tasks.get? i <;> simp

/-- Witness for C5 at the spec example: five tasks over two agents with
max_concurrent = 2. -/
theorem c5_witness :
    (["agent-a", "agent-b"] : List String) ≠ []
    ∧ execute_parallel Claims.c5Run ["agent-a", "agent-b"] Claims.c5Tasks 2
        = .ok (roundRobin Claims.c5Run ["agent-a", "agent-b"] Claims.c5Tasks)
    ∧ (roundRobin Claims.c5Run ["agent-a", "agent-b"] Claims.c5Tasks).length = 5
    ∧ (∀ s, SemReachable 2 5 s → runningCount s ≤ 2) := by
  have h := c5_parallel_distribution Claims.c5Run ["agent-a", "agent-b"]
    Claims.c5Tasks 2 (by simp)
  exact ⟨by simp, h.1, by rw [h.2.1]; rfl, h.2.2.2⟩

/-- C10.  With zero agents and a non-empty task list, execute_parallel
propagates ZeroDivisionError (the round-robin index is taken modulo the
agent count) instead of returning outcomes. -/
theorem c10_zero_agents_raise :
    ∀ (runTask : String → Task → ParallelOutcome) (tasks : List Task)
      (max_concurrent : Nat), tasks ≠ [] →
      execute_parallel runTask [] tasks max_concurrent
        = .error { msg := "ZeroDivisionError" } := by
  intro runTask tasks mc h
  cases tasks with
  | nil => exact absurd rfl h
  | cons t ts => simp [execute_parallel, distribute, pyMod]

/-- Witness for C10: one task, zero agents. -/
theorem c10_witness :
    ([({ id := "t" } : Task)] ≠ ([] : List Task))
    ∧ execute_parallel (fun _ _ => .ok (.error "" "" "stub")) []
        [{ id := "t" }] 5 = .error { msg := "ZeroDivisionError" } :=
  ⟨by simp, c10_zero_agents_raise _ _ _ (by simp)⟩

end Orchestrator

namespace Enhanced

open Sandbox

theorem sameCore_refl (a : EAgent) : SameCore a a :=
  ⟨rfl, rfl, rfl, rfl, rfl, rfl, rfl⟩

theorem sameCore_trans {a b c : EAgent} (h1 : SameCore a b) (h2 : SameCore b c) :
    SameCore a c := by
  obtain ⟨e1, e2, e3, e4, e5, e6, e7⟩ := h1
  obtain ⟨f1, f2, f3, f4, f5, f6, f7⟩ := h2
  exact ⟨e1.trans f1, e2.trans f2, e3.trans f3, e4.trans f4,
         e5.trans f5, e6.trans f6, e7.trans f7⟩

theorem actStep_core (run : SandboxRun) (task : Task)
    (acc : EAgent × List StepResult) (p : Nat × PlanStep) :
    SameCore (actStep run task acc p).1 acc.1 := by
  rcases hsel : acc.1._select_tool p.2.action with _ | tid <;>
    simp only [actStep, hsel] <;>
    exact ⟨rfl, rfl, rfl, rfl, rfl, rfl, rfl⟩

theorem actFold_core (run : SandboxRun) (task : Task) :
    ∀ (l : List (Nat × PlanStep)) (acc : EAgent × List StepResult),
      SameCore ((l.foldl (actStep run task) acc).1) acc.1 := by
  intro l
  induction l with
  | nil => intro acc; exact sameCore_refl _
  | cons p rest ih =>
    intro acc
    rw [List.foldl_cons]
    exact sameCore_trans (ih (actStep run task acc p)) (actStep_core run task acc p)

theorem think_core (ag : EAgent) (t : Task) : SameCore (ag._think t).1 ag :=
  ⟨rfl, rfl, rfl, rfl, rfl, rfl, rfl⟩

theorem act_core (ag : EAgent) (run : SandboxRun) (plan : Plan) (task : Task) :
    SameCore (ag._act run plan task).1 ag :=
  sameCore_trans
    (actFold_core run task plan.steps.enum ({ ag with state := .executing }, []))
    ⟨rfl, rfl, rfl, rfl, rfl, rfl, rfl⟩

theorem reflect_core (ag : EAgent) (result : ActResult) :
    SameCore (ag._reflect result).1 ag :=
  ⟨rfl, rfl, rfl, rfl, rfl, rfl, rfl⟩

theorem update_core (ag : EAgent) (e : Nat) :
    SameCore (ag._update_metrics e) ag := by
  simp only [EAgent._update_metrics]
  split <;> split <;> exact ⟨rfl, rfl, rfl, rfl, rfl, rfl, rfl⟩

/-- What _evolve does when the reflection requests evolution. -/
theorem evolve_true (ag : EAgent) (r : Reflection) (h : r.should_evolve = true) :
    (ag._evolve r).1.evolution_history = ag.evolution_history ++ [evolveRecord]
    ∧ (ag._evolve r).1.metrics.tools_created = ag.metrics.tools_created + 1
    ∧ (ag._evolve r).1.metrics.tasks_completed = ag.metrics.tasks_completed
    ∧ (ag._evolve r).1.metrics.tasks_failed = ag.metrics.tasks_failed := by
  simp [EAgent._evolve, h, evolveRecord]

/-- The single tool _evolve registers, appended with a fresh id and
attributed to the evolving agent. -/
theorem evolve_registers (ag : EAgent) (r : Reflection) (h : r.should_evolve = true)
    (hwf : RegWF ag.tools) :
    (ag._evolve r).1.tools.tools
      = ag.tools.tools ++ [(ag.tools.next_uuid, autogenTool ag)] := by
  simp only [EAgent._evolve, h, Bool.not_true, Bool.false_eq_true, if_false,
    ToolRegistry.register_tool]
  exact dictSet_absent _ _ _ (fun p hp => Nat.ne_of_lt (hwf p hp))

theorem evolve_false (ag : EAgent) (r : Reflection) (h : r.should_evolve = false) :
    (ag._evolve r).1 = ag := by
  simp [EAgent._evolve, h]

/-- C1 (amended).  AgentZeroInstance.execute_task always leaves the task
status terminal (Completed on the success path, Error in the except
branch), while EnhancedAgentZero.execute_task returns the task object with
every field exactly as it received it: it never writes task.status. -/
theorem c1_terminal_status :
    (∀ (f : AgentZeroCore.BaseFaults) (ag : AgentZeroCore.BaseAgent) (task : Task),
       (AgentZeroCore.BaseAgent.execute_task f ag task).2.1.status = AgentState.completed
       ∨ (AgentZeroCore.BaseAgent.execute_task f ag task).2.1.status = AgentState.error)
    ∧ (∀ (c : Collab) (ag : EAgent) (task : Task),
       (EAgent.execute_task c ag task).2.1 = task) := by
  constructor
  · intro f ag task
    rcases f with ⟨pf, ef, rf⟩
    cases pf <;> cases ef <;> cases rf <;>
      simp [AgentZeroCore.BaseAgent.execute_task, AgentZeroCore.baseExecutePlan]
  · intro c ag task
    simp only [EAgent.execute_task]
    split
    · rfl
    · split
      · rfl
      · rfl

/-- Counterexample for C1: a fresh task run through the enhanced agent
comes back still Idle, neither Completed nor Error. -/
theorem c1_counterexample :
    (EAgent.execute_task Claims.c1Collab Claims.c1Agent Claims.c1Task).2.1.status
        = AgentState.idle
    ∧ ¬ ((EAgent.execute_task Claims.c1Collab Claims.c1Agent Claims.c1Task).2.1.status
          = AgentState.completed
        ∨ (EAgent.execute_task Claims.c1Collab Claims.c1Agent Claims.c1Task).2.1.status
          = AgentState.error) := by
  decide

theorem failed_filter_eq (steps : List StepResult) :
    steps.filter (fun s => ! s.success.getD true)
      = steps.filter (fun s => s.success = some false) := by
  apply List.filter_congr
  intro s _
  rcases h : s.success with _ | b
  · simp [h]
  · cases b <;> simp [h]

theorem half_lt (a b : Nat) : ((b : ℚ) / 2 < (a : ℚ)) ↔ b < 2 * a := by
  have h2 : ((b : ℚ) < (a : ℚ) * 2) ↔ (b < a * 2) := by exact_mod_cast Iff.rfl
  rw [div_lt_iff (by norm_num : (0 : ℚ) < 2), h2]
  omega

theorem update_counters (ag : EAgent) (e : Nat) :
    (ag._update_metrics e).metrics.tasks_completed = ag.metrics.tasks_completed
    ∧ (ag._update_metrics e).metrics.tasks_failed = ag.metrics.tasks_failed
    ∧ (ag._update_metrics e).metrics.tools_created = ag.metrics.tools_created
    ∧ (ag._update_metrics e).evolution_history = ag.evolution_history := by
  refine ⟨?_, ?_, ?_, ?_⟩ <;>
    (simp only [EAgent._update_metrics] <;> split <;> first | rfl | (split <;> rfl))

theorem reflect_snd (ag : EAgent) (r : ActResult) :
    (ag._reflect r).2 = reflectionOf r.details := rfl

theorem should_evolve_iff (steps : List StepResult) :
    (reflectionOf steps).should_evolve = true
      ↔ steps.length < 2 * (steps.filter (fun s => ! s.success.getD true)).length := by
  have h := half_lt (steps.filter (fun s => ! s.success.getD true)).length steps.length
  simp [reflectionOf, gt_iff_lt, h]

/-- The effect of execute_task for an agent with no memory collaborator:
the call returns the success dict, the evolution guard is exactly the
reflection of the act details, and when that guard is set one evolution
record is appended and tools_created bumped. -/
theorem execute_task_effects (c : Collab) (ag : EAgent) (task : Task)
    (hm : ag.memory = none) :
    outcomeShouldEvolve (EAgent.execute_task c ag task).2.2
        = ((((ag._think task).1._act c.run (ag._think task).2 task).1._reflect
            (((ag._think task).1._act c.run (ag._think task).2 task).2)).2).should_evolve
    ∧ (((((ag._think task).1._act c.run (ag._think task).2 task).1._reflect
            (((ag._think task).1._act c.run (ag._think task).2 task).2)).2).should_evolve = true →
        (EAgent.execute_task c ag task).1.evolution_history
            = ag.evolution_history ++ [evolveRecord]
        ∧ (EAgent.execute_task c ag task).1.metrics.tools_created
            = ag.metrics.tools_created + 1) := by
  have hcore : SameCore ((((ag._think task).1._act c.run (ag._think task).2 task).1._reflect
      (((ag._think task).1._act c.run (ag._think task).2 task).2)).1) ag :=
    sameCore_trans (reflect_core _ _)
      (sameCore_trans (act_core _ _ _ _) (think_core _ _))
  obtain ⟨hid, hcfg, hmem, hev, hc1, hc2, hc3⟩ := hcore
  rw [hm] at hmem
  simp only [EAgent.execute_task, hm, hmem, memorizeAt]
  constructor
  · rfl
  · intro hse
    rw [hse]
    simp only [if_true]
    constructor
    · rw [(evolve_true _ _ hse).1, (update_counters _ _).2.2.2]
      simp only []
      rw [hev]
    · rw [(evolve_true _ _ hse).2.1, (update_counters _ _).2.2.1]
      simp only []
      rw [hc3]

/-- C2.  The reflection is a function of the step-result sequence:
failed_steps counts the steps whose success flag is present and false,
success_rate is 1 - failed/total (1 on an empty sequence), and
should_evolve holds exactly when failures are a strict majority; on the
three-step example with two failures it requests evolution with success
rate one third. -/
theorem c2_reflection_function :
    (∀ steps : List StepResult,
      (reflectionOf steps).failed_steps
          = (steps.filter (fun s => s.success = some false)).length
      ∧ (reflectionOf steps).success_rate
          = (if steps.length = 0 then (1 : ℚ)
             else 1 - ((steps.filter (fun s => s.success = some false)).length : ℚ)
                        / (steps.length : ℚ))
      ∧ ((reflectionOf steps).should_evolve = true
          ↔ steps.length < 2 * (steps.filter (fun s => s.success = some false)).length))
    ∧ (reflectionOf Claims.c2Example).should_evolve = true
    ∧ (reflectionOf Claims.c2Example).success_rate = 1 / 3 := by
  have main : ∀ steps : List StepResult,
      (reflectionOf steps).failed_steps
          = (steps.filter (fun s => s.success = some false)).length
      ∧ (reflectionOf steps).success_rate
          = (if steps.length = 0 then (1 : ℚ)
             else 1 - ((steps.filter (fun s => s.success = some false)).length : ℚ)
                        / (steps.length : ℚ))
      ∧ ((reflectionOf steps).should_evolve = true
          ↔ steps.length < 2 * (steps.filter (fun s => s.success = some false)).length) := by
    intro steps
    refine ⟨?_, ?_, ?_⟩
    · simp [reflectionOf, failed_filter_eq]
    · simp [reflectionOf, failed_filter_eq]
    · have h := half_lt (steps.filter (fun s => s.success = some false)).length steps.length
      simp [reflectionOf, failed_filter_eq, gt_iff_lt, h]
  refine ⟨main, ?_, ?_⟩
  · exact (main Claims.c2Example).2.2.mpr (by decide)
  · have h := (main Claims.c2Example).2.1
    rw [h, show Claims.c2Example.length = 3 from rfl,
      show (Claims.c2Example.filter (fun s => s.success = some false)).length = 2 from rfl]
    norm_num

/-- C3 (amended).  During one execute_task call the evolution action runs
exactly when the returned success reflection requests it — config.auto_evolve
is not consulted — and when it runs it appends exactly one EvolutionRecord
and bumps tools_created by one; _evolve itself registers exactly one new
tool whose creator is this agent.  At most one evolution action can happen
per call. -/
theorem c3_evolution_guard :
    ∀ (c : Collab) (ag : EAgent) (task : Task),
    (outcomeShouldEvolve (EAgent.execute_task c ag task).2.2 = true →
       (EAgent.execute_task c ag task).1.evolution_history
           = ag.evolution_history ++ [evolveRecord]
       ∧ (EAgent.execute_task c ag task).1.metrics.tools_created
           = ag.metrics.tools_created + 1)
    ∧ (outcomeShouldEvolve (EAgent.execute_task c ag task).2.2 = false →
       (EAgent.execute_task c ag task).1.evolution_history = ag.evolution_history
       ∧ (EAgent.execute_task c ag task).1.metrics.tools_created
           = ag.metrics.tools_created)
    ∧ (∀ r : Reflection, r.should_evolve = true → RegWF ag.tools →
       (ag._evolve r).1.evolution_history = ag.evolution_history ++ [evolveRecord]
       ∧ (ag._evolve r).1.tools.tools
           = ag.tools.tools ++ [(ag.tools.next_uuid, autogenTool ag)]
       ∧ (autogenTool ag).created_by = ag.id
       ∧ (ag._evolve r).1.metrics.tools_created = ag.metrics.tools_created + 1) := by
  intro c ag task
  have hcore : SameCore ((((ag._think task).1._act c.run (ag._think task).2 task).1._reflect
      (((ag._think task).1._act c.run (ag._think task).2 task).2)).1) ag :=
    sameCore_trans (reflect_core _ _)
      (sameCore_trans (act_core _ _ _ _) (think_core _ _))
  obtain ⟨hid, hcfg, hmem, hev, hc1, hc2, hc3⟩ := hcore
  refine ⟨?_, ?_, ?_⟩
  · intro hse
    revert hse
    simp only [EAgent.execute_task]
    split
    · intro hse; simp [outcomeShouldEvolve] at hse
    · split
      · intro hse; simp [outcomeShouldEvolve] at hse
      · intro hse
        simp only [outcomeShouldEvolve] at hse
        rw [hse]
        simp only [if_true]
        constructor
        · rw [(evolve_true _ _ hse).1, (update_counters _ _).2.2.2]
          simp only []
          rw [hev]
        · rw [(evolve_true _ _ hse).2.1, (update_counters _ _).2.2.1]
          simp only []
          rw [hc3]
  · intro hse
    revert hse
    simp only [EAgent.execute_task]
    split
    · intro _; exact ⟨rfl, rfl⟩
    · split
      · intro _
        exact ⟨hev, hc3⟩
      · intro hse
        simp only [outcomeShouldEvolve] at hse
        rw [hse]
        simp only [Bool.false_eq_true, if_false]
        constructor
        · rw [(update_counters _ _).2.2.2]
          simp only []
          rw [hev]
        · rw [(update_counters _ _).2.2.1]
          simp only []
          rw [hc3]
  · intro r hse hwf
    have he := evolve_true ag r hse
    exact ⟨he.1, evolve_registers ag r hse hwf, rfl, he.2.1⟩

/-- Counterexample for C3: an agent configured with auto_evolve = False
still evolves (one record appended, one tool created) when the sandboxed
tool bodies fail a strict majority of steps. -/
theorem c3_counterexample :
    Claims.c3Agent.config.auto_evolve = false
    ∧ Claims.c3Agent.evolution_history = []
    ∧ (EAgent.execute_task Claims.c3Collab Claims.c3Agent Claims.c3Task).1.evolution_history.length = 1
    ∧ (EAgent.execute_task Claims.c3Collab Claims.c3Agent Claims.c3Task).1.metrics.tools_created = 1 := by
  have heff := execute_task_effects Claims.c3Collab Claims.c3Agent Claims.c3Task rfl
  have hse : ((((Claims.c3Agent._think Claims.c3Task).1._act Claims.c3Collab.run
      (Claims.c3Agent._think Claims.c3Task).2 Claims.c3Task).1._reflect
      (((Claims.c3Agent._think Claims.c3Task).1._act Claims.c3Collab.run
      (Claims.c3Agent._think Claims.c3Task).2 Claims.c3Task).2)).2).should_evolve = true := by
    rw [reflect_snd, should_evolve_iff]
    decide
  obtain ⟨hh1, hh2⟩ := heff.2 hse
  refine ⟨rfl, rfl, ?_, ?_⟩
  · rw [hh1]; rfl
  · rw [hh2]; rfl

/-- Witness for C3 at a concrete evolving run and a concrete reflection. -/
theorem c3_witness :
    outcomeShouldEvolve (EAgent.execute_task Claims.c3Collab Claims.c3Agent Claims.c3Task).2.2 = true
    ∧ (EAgent.execute_task Claims.c3Collab Claims.c3Agent Claims.c3Task).1.evolution_history
        = Claims.c3Agent.evolution_history ++ [evolveRecord]
    ∧ Claims.c3Reflection.should_evolve = true
    ∧ RegWF Claims.c3Agent.tools
    ∧ (Claims.c3Agent._evolve Claims.c3Reflection).1.tools.tools
        = Claims.c3Agent.tools.tools
            ++ [(Claims.c3Agent.tools.next_uuid, autogenTool Claims.c3Agent)] := by
  have hse : outcomeShouldEvolve
      (EAgent.execute_task Claims.c3Collab Claims.c3Agent Claims.c3Task).2.2 = true := by
    rw [(execute_task_effects Claims.c3Collab Claims.c3Agent Claims.c3Task rfl).1,
      reflect_snd, should_evolve_iff]
    decide
  exact ⟨hse,
    ((c3_evolution_guard Claims.c3Collab Claims.c3Agent Claims.c3Task).1 hse).1,
    rfl,
    by decide,
    ((c3_evolution_guard Claims.c3Collab Claims.c3Agent Claims.c3Task).2.2
      Claims.c3Reflection rfl (by decide)).2.1⟩

/-- C8 (amended).  One call to EnhancedAgentZero.execute_task increases
tasks_completed + tasks_failed by exactly one whenever it returns a dict;
but when the pre-try memorize raises (memory configured with the graphiti
client unset), the exception propagates and neither counter moves. -/
theorem c8_counters :
    ∀ (c : Collab) (ag : EAgent) (task : Task),
    (outcomeRaised (EAgent.execute_task c ag task).2.2 = true →
       (EAgent.execute_task c ag task).1.metrics.tasks_completed
           = ag.metrics.tasks_completed
       ∧ (EAgent.execute_task c ag task).1.metrics.tasks_failed
           = ag.metrics.tasks_failed)
    ∧ (outcomeRaised (EAgent.execute_task c ag task).2.2 = false →
       (EAgent.execute_task c ag task).1.metrics.tasks_completed
           + (EAgent.execute_task c ag task).1.metrics.tasks_failed
         = ag.metrics.tasks_completed + ag.metrics.tasks_failed + 1) := by
  intro c ag task
  have hcore : SameCore ((((ag._think task).1._act c.run (ag._think task).2 task).1._reflect
      (((ag._think task).1._act c.run (ag._think task).2 task).2)).1) ag :=
    sameCore_trans (reflect_core _ _)
      (sameCore_trans (act_core _ _ _ _) (think_core _ _))
  obtain ⟨hid, hcfg, hmem, hev, hc1, hc2, hc3⟩ := hcore
  constructor
  · intro hra
    revert hra
    simp only [EAgent.execute_task]
    split
    · intro _; exact ⟨rfl, rfl⟩
    · split
      · intro hra; simp [outcomeRaised] at hra
      · intro hra; simp [outcomeRaised] at hra
  · intro hra
    revert hra
    simp only [EAgent.execute_task]
    split
    · intro hra; simp [outcomeRaised] at hra
    · split
      · intro _
        simp only []
        omega
      · intro _
        split
        · next hse =>
          rw [(evolve_true _ _ hse).2.2.1, (evolve_true _ _ hse).2.2.2,
            (update_counters _ _).1, (update_counters _ _).2.1]
          simp only []
          omega
        · rw [(update_counters _ _).1, (update_counters _ _).2.1]
          simp only []
          omega

/-- Counterexample for C8: with memory configured but the graphiti client
unset, execute_task propagates RuntimeError and the counter sum stays at
zero instead of increasing by one. -/
theorem c8_counterexample :
    Claims.c8Agent.metrics.tasks_completed + Claims.c8Agent.metrics.tasks_failed = 0
    ∧ outcomeRaised (EAgent.execute_task Claims.c8Collab Claims.c8Agent Claims.c8Task).2.2 = true
    ∧ (EAgent.execute_task Claims.c8Collab Claims.c8Agent Claims.c8Task).1.metrics.tasks_completed
        + (EAgent.execute_task Claims.c8Collab Claims.c8Agent Claims.c8Task).1.metrics.tasks_failed
      = 0 := by
  refine ⟨rfl, rfl, rfl⟩

/-- Witness for C8 on the returning path: an agent without memory
completes a task and the counter sum rises from zero to one. -/
theorem c8_witness :
    outcomeRaised (EAgent.execute_task Claims.c8Collab Claims.c8wAgent Claims.c8Task).2.2 = false
    ∧ (EAgent.execute_task Claims.c8Collab Claims.c8wAgent Claims.c8Task).1.metrics.tasks_completed
        + (EAgent.execute_task Claims.c8Collab Claims.c8wAgent Claims.c8Task).1.metrics.tasks_failed
      = Claims.c8wAgent.metrics.tasks_completed + Claims.c8wAgent.metrics.tasks_failed + 1 :=
  ⟨by rfl, (c8_counters Claims.c8Collab Claims.c8wAgent Claims.c8Task).2 (by rfl)⟩

end Enhanced

end AegntUnltd
